import Mathlib

/-
Verification of the tinydreamers profile-statistics screens.

Time model: an instant is the number of milliseconds shown on the local
clock (a fixed UTC offset, no DST transitions), represented as an `Int`.
Under this model, JS `date.setDate(date.getDate() + k)` is adding
`k * 86400000` milliseconds, `setHours(0,0,0,0)` floors the instant to the
enclosing local midnight, and `getDay()` is day-of-week with Sunday = 0.
1970-01-01 (instant 0) is a Thursday, so `getDay` is `(floor(t/day) + 4) mod 7`.
-/

namespace TinyDreamers

def msPerDay : Int := 86400000

/-- JS `Date.prototype.getDay` on a local-clock instant: 0 = Sunday .. 6 = Saturday.
Division and remainder on `Int` are Euclidean (`Int.ediv` / `Int.emod`), matching the
floor semantics of calendar arithmetic for the positive divisors used here. -/
def getDay (t : Int) : Int :=
  (t / msPerDay + 4) % 7

/-- JS `setHours(0, 0, 0, 0)`: floor the instant to the enclosing local midnight. -/
def atMidnight (t : Int) : Int :=
  t / msPerDay * msPerDay

namespace Profile

/-- getStartOfWeek from `src/app/(tabs)/profile.tsx` lines 45-53:
`diff = dayOfWeek === 0 ? -6 : 1 - dayOfWeek`, then
`setDate(getDate() + diff)` and `setHours(0,0,0,0)`. -/
def getStartOfWeek (t : Int) : Int :=
  atMidnight (t + (if getDay t = 0 then -6 else 1 - getDay t) * msPerDay)

end Profile

namespace ProfileIos

/-- getStartOfWeek from `src/app/(tabs)/profile.ios.tsx` lines 45-53:
`diff = dayOfWeek === 0 ? 6 : dayOfWeek - 1`, then
`setDate(getDate() - diff)` and `setHours(0,0,0,0)`. The source returns
`monday.toISOString()`; same-format ISO strings compare lexicographically
exactly like the instants they denote, so the function is modelled as the
instant itself. -/
def getStartOfWeek (t : Int) : Int :=
  atMidnight (t - (if getDay t = 0 then 6 else getDay t - 1) * msPerDay)

end ProfileIos

namespace Part002

/-- getStartOfWeek from `src/unnamed/part_002` lines 229-237:
`diff = dayOfWeek === 0 ? 6 : dayOfWeek - 1`, then
`setDate(getDate() - diff)` and `setHours(0,0,0,0)`, returning the Date. -/
def getStartOfWeek (t : Int) : Int :=
  atMidnight (t - (if getDay t = 0 then 6 else getDay t - 1) * msPerDay)

end Part002

/-- Shared helper: flooring to midnight does not change the day of the week. -/
lemma getDay_atMidnight (t : Int) : getDay (atMidnight t) = getDay t := by
  unfold getDay atMidnight msPerDay
  omega

/-- Shared helper: the midnight floor is aligned to a day boundary. -/
lemma atMidnight_emod (t : Int) : atMidnight t % msPerDay = 0 := by
  unfold atMidnight msPerDay
  omega

/-- Shared helper: shifting by whole days shifts the day of the week modulo 7. -/
lemma getDay_add_days (t k : Int) : getDay (t + k * msPerDay) = (getDay t + k) % 7 := by
  unfold getDay msPerDay
  omega

/-- Shared helper: the boundary computed by `profile.tsx` is a Monday
(day index 1) and is aligned to local midnight. -/
lemma profile_getStartOfWeek_monday (t : Int) :
    getDay (Profile.getStartOfWeek t) = 1 ∧
    Profile.getStartOfWeek t % msPerDay = 0 := by
  constructor
  · unfold Profile.getStartOfWeek
    rw [getDay_atMidnight, getDay_add_days]
    by_cases h : getDay t = 0
    · rw [if_pos h, h]
      decide
    · rw [if_neg h]
      have harg : getDay t + (1 - getDay t) = 1 := by ring
      rw [harg]
      decide
  · exact atMidnight_emod _

/-- Shared helper: the tsx and ios week boundaries agree on every instant. -/
lemma profile_getStartOfWeek_eq_ios (t : Int) :
    Profile.getStartOfWeek t = ProfileIos.getStartOfWeek t := by
  unfold Profile.getStartOfWeek ProfileIos.getStartOfWeek
  by_cases h : getDay t = 0
  · rw [if_pos h, if_pos h]
    have harg : t + (-6) * msPerDay = t - 6 * msPerDay := by ring
    rw [harg]
  · rw [if_neg h, if_neg h]
    have harg : t + (1 - getDay t) * msPerDay = t - (getDay t - 1) * msPerDay := by ring
    rw [harg]

/-- Shared helper: an instant aligned to midnight is fixed by `atMidnight`. -/
lemma atMidnight_of_emod_eq_zero {t : Int} (h : t % msPerDay = 0) :
    atMidnight t = t := by
  have h2 : t % 86400000 = 0 := h
  show t / 86400000 * 86400000 = t
  omega

/-- C2 counterexample: the claim asserts two of the duplicated profile screens
embed week-boundary functions that are not extensionally equal (Monday-start
versus Sunday-start). Its negation holds: on every instant the three embedded
getStartOfWeek functions (profile.tsx, profile.ios.tsx, part_002) agree. -/
theorem weekStart_conventions_agree :
    ¬ ∃ t : Int,
        Profile.getStartOfWeek t ≠ ProfileIos.getStartOfWeek t ∨
        Profile.getStartOfWeek t ≠ Part002.getStartOfWeek t ∨
        ProfileIos.getStartOfWeek t ≠ Part002.getStartOfWeek t := by
  rintro ⟨t, h⟩
  have h1 := profile_getStartOfWeek_eq_ios t
  have h2 : ProfileIos.getStartOfWeek t = Part002.getStartOfWeek t := rfl
  rcases h with h | h | h
  · exact h h1
  · exact h (h1.trans h2)
  · exact h h2

/-- C2 amended: the week-boundary functions embedded in the inspected profile
screens are pairwise extensionally equal and all follow the Monday-start
convention; no Sunday-start variant appears in the inspected files. -/
theorem weekStart_all_monday (t : Int) :
    Profile.getStartOfWeek t = ProfileIos.getStartOfWeek t ∧
    ProfileIos.getStartOfWeek t = Part002.getStartOfWeek t ∧
    getDay (Profile.getStartOfWeek t) = 1 :=
  ⟨profile_getStartOfWeek_eq_ios t, rfl, (profile_getStartOfWeek_monday t).1⟩

/-- C3: for every instant, the Monday-start getStartOfWeek returns a Monday
(day index 1) at 00:00:00.000 local time, and it equals the midnight of the
instant 6 days earlier when the instant falls on a Sunday and
(weekday index - 1) days earlier otherwise. -/
theorem getStartOfWeek_monday_midnight (t : Int) :
    getDay (Profile.getStartOfWeek t) = 1 ∧
    Profile.getStartOfWeek t % msPerDay = 0 ∧
    Profile.getStartOfWeek t
      = atMidnight (t - (if getDay t = 0 then 6 else getDay t - 1) * msPerDay) := by
  refine ⟨(profile_getStartOfWeek_monday t).1, (profile_getStartOfWeek_monday t).2, ?_⟩
  unfold Profile.getStartOfWeek
  by_cases h : getDay t = 0
  · rw [if_pos h, if_pos h]
    have harg : t + (-6) * msPerDay = t - 6 * msPerDay := by ring
    rw [harg]
  · rw [if_neg h, if_neg h]
    have harg : t + (1 - getDay t) * msPerDay = t - (getDay t - 1) * msPerDay := by ring
    rw [harg]

/-- C7: the week-boundary function is idempotent: applying the embedded
getStartOfWeek to its own output returns that output unchanged. -/
theorem getStartOfWeek_idempotent (t : Int) :
    Profile.getStartOfWeek (Profile.getStartOfWeek t) = Profile.getStartOfWeek t := by
  obtain ⟨h1, h2⟩ := profile_getStartOfWeek_monday t
  have hstep : Profile.getStartOfWeek (Profile.getStartOfWeek t)
      = atMidnight (Profile.getStartOfWeek t +
          (if getDay (Profile.getStartOfWeek t) = 0 then -6
           else 1 - getDay (Profile.getStartOfWeek t)) * msPerDay) := rfl
  rw [hstep, h1]
  norm_num
  exact atMidnight_of_emod_eq_zero h2

/-
Data model of the external record store, translated from the queries the
screens issue. A row of `user_words`, `user_books` or `words` is consumed only
through its `child_id` filter and `created_at` lower bound; a row of `moments`
additionally carries the fields of the Moment interface
(id, video_url, thumbnail_url, created_at, trims are irrelevant to the claims).
Identifiers and object references are modelled as naturals, timestamps as
local-clock instants (`created_at` is an ISO string in the source; same-format
ISO strings compare lexicographically exactly like their instants, so the
`gte('created_at', ...)` filter is instant comparison).
-/

structure Row where
  child_id : Nat
  created_at : Int
deriving Repr, DecidableEq

structure Moment where
  id : Nat
  child_id : Nat
  video_url : Nat
  thumbnail_url : Option Nat
  created_at : Int
deriving Repr, DecidableEq

/-- The logical record sets the screens query: `user_words`, `user_books`,
`moments`, and the `words` table that only `part_002` uses. -/
structure Store where
  user_words : List Row
  user_books : List Row
  words : List Row
  moments : List Moment
deriving Repr

/-- Outcome of one supabase sub-query, as seen by the awaiting caller:
`ok` resolves with the correct data and no error; `softError` resolves with
`data = null` / `count = null` and a non-null `error` field (the supabase
client does not throw in this case); `reject` is a rejected promise
(for example a network-level failure), which makes the `await` throw. -/
inductive QueryOutcome where
  | ok
  | softError
  | reject
deriving Repr, DecidableEq

def isOk : QueryOutcome → Bool
  | .ok => true
  | _ => false

def isReject : QueryOutcome → Bool
  | .reject => true
  | _ => false

/-- The `count` field of a resolved count query: the exact count on success,
null when the query resolved carrying an error. -/
def countVal (o : QueryOutcome) (n : Nat) : Option Nat :=
  match o with
  | .ok => some n
  | _ => none

/-- The `data` field of a resolved list query: the rows on success, null when
the query resolved carrying an error. -/
def dataVal {α : Type} (o : QueryOutcome) (l : List α) : Option (List α) :=
  match o with
  | .ok => some l
  | _ => none

/-- Supabase count query `select(count: exact).eq(child_id, c)` with an
optional `gte(created_at, w)` lower bound. -/
def countRows (rows : List Row) (c : Nat) (since : Option Int) : Nat :=
  (rows.filter fun r =>
    r.child_id == c &&
      (match since with
       | none => true
       | some w => decide (w ≤ r.created_at))).length

/-- Supabase data query `select(id, created_at).eq(child_id, c).gte(created_at, w)`:
the rows whose length the tsx screen takes. -/
def weekRows (rows : List Row) (c : Nat) (w : Int) : List Row :=
  rows.filter fun r => r.child_id == c && decide (w ≤ r.created_at)

/-- Count of moments for a child with an optional created_at lower bound. -/
def countMoments (rows : List Moment) (c : Nat) (since : Option Int) : Nat :=
  (rows.filter fun m =>
    m.child_id == c &&
      (match since with
       | none => true
       | some w => decide (w ≤ m.created_at))).length

/-- Moment rows for a child with a created_at lower bound (tsx momentsThisWeek query). -/
def weekMoments (rows : List Moment) (c : Nat) (w : Int) : List Moment :=
  rows.filter fun m => m.child_id == c && decide (w ≤ m.created_at)

/-- Descending creation-time order used by `order(created_at, ascending: false)`. -/
def MomentDesc (a b : Moment) : Prop :=
  b.created_at ≤ a.created_at

instance : DecidableRel MomentDesc :=
  fun a b => inferInstanceAs (Decidable (b.created_at ≤ a.created_at))

instance : IsTotal Moment MomentDesc :=
  ⟨fun a b => le_total b.created_at a.created_at⟩

instance : IsTrans Moment MomentDesc :=
  ⟨fun _ _ _ hab hbc => le_trans hbc hab⟩

/-- Supabase list query
`select(*).eq(child_id, c).order(created_at, ascending: false).limit(n)`:
the child's moments in descending creation-time order, capped at `n`.
The stable sort models the stability of the underlying query. -/
def recentMoments (rows : List Moment) (c : Nat) (n : Nat) : List Moment :=
  (List.insertionSort MomentDesc (rows.filter fun m => m.child_id == c)).take n

/-- A moment after signed-URL resolution, as consumed by the screens. -/
structure ResolvedMoment where
  id : Nat
  video_url : Nat
  thumbnail_url : Option Nat
  created_at : Int
  signedVideoUrl : Option Nat
  signedThumbnailUrl : Option Nat
deriving Repr, DecidableEq

/-- Modelled from the spec: the signed-URL resolution of a single moment.
`processMomentsWithSignedUrls` lives in `@/utils/videoStorage`, which is not
among the inspected files. Spec section 4.3: the resolver contract is
`resolve(objectRef) -> signedUrl | null`, called once for the moment's video
reference and once for its optional thumbnail reference; `null` signals
resolution failure and must not raise; resolution is best-effort and
independent per moment. -/
def resolveMoment (resolve : Nat → Option Nat) (m : Moment) : ResolvedMoment :=
  { id := m.id
    video_url := m.video_url
    thumbnail_url := m.thumbnail_url
    created_at := m.created_at
    signedVideoUrl := resolve m.video_url
    signedThumbnailUrl :=
      match m.thumbnail_url with
      | none => none
      | some r => resolve r }

/-- Modelled from the spec: `processMomentsWithSignedUrls` from
`@/utils/videoStorage` (not among the inspected files) resolves each moment of
the list independently, one resolver call per video and thumbnail reference. -/
def processMomentsWithSignedUrls (resolve : Nat → Option Nat)
    (ms : List Moment) : List ResolvedMoment :=
  ms.map (resolveMoment resolve)

/-- The six-field stats snapshot the screens store in `setStats`. -/
structure ProfileStats where
  totalWords : Nat
  totalBooks : Nat
  wordsThisWeek : Nat
  booksThisWeek : Nat
  momentsThisWeek : Nat
  newWordsThisWeek : Nat
deriving Repr, DecidableEq

/-- The initial all-zero snapshot. -/
def zeroStats : ProfileStats :=
  { totalWords := 0, totalBooks := 0, wordsThisWeek := 0, booksThisWeek := 0,
    momentsThisWeek := 0, newWordsThisWeek := 0 }

/-- The screen state a fetch can write: the `stats` and `moments` React states. -/
structure ScreenState where
  stats : ProfileStats
  moments : List ResolvedMoment
deriving Repr, DecidableEq

/-- True when at least one of the six sub-query promises rejects, which makes
`await Promise.all` (or the corresponding sequential `await`) throw. -/
def anyReject (o1 o2 o3 o4 o5 o6 : QueryOutcome) : Bool :=
  isReject o1 || isReject o2 || isReject o3 || isReject o4 || isReject o5 || isReject o6

/-- True when all six sub-queries resolve successfully with no error field. -/
def allOk (o1 o2 o3 o4 o5 o6 : QueryOutcome) : Bool :=
  isOk o1 && isOk o2 && isOk o3 && isOk o4 && isOk o5 && isOk o6

namespace Profile

/-- fetchProfileData from `src/app/(tabs)/profile.tsx` lines 84-171, as a
transformer of the screen state; the second component records whether the
catch branch ran (`Alert 'Failed to load profile data'`, the FetchFailed
surface). With no selected child the function only clears the loading flag
and returns: stats and moments are left untouched and no query is issued.
Otherwise the six queries run under `Promise.all`: if any rejects, the catch
branch leaves stats and moments untouched; if all resolve, the snapshot is
assembled with each count defaulted by `?? 0` / `?.length ?? 0` even when the
sub-query resolved carrying an error (the destructuring never reads `error`),
and moments are processed through the signed-URL resolver. -/
def fetchProfileData (selectedChild : Option Nat) (store : Store)
    (o1 o2 o3 o4 o5 o6 : QueryOutcome) (resolve : Nat → Option Nat)
    (now : Int) (prior : ScreenState) : ScreenState × Bool :=
  match selectedChild with
  | none => (prior, false)
  | some c =>
    if anyReject o1 o2 o3 o4 o5 o6 then
      (prior, true)
    else
      let startOfWeek := getStartOfWeek now
      let totalWordsCount := countVal o1 (countRows store.user_words c none)
      let totalBooksCount := countVal o2 (countRows store.user_books c none)
      let wordsThisWeekData := dataVal o3 (weekRows store.user_words c startOfWeek)
      let booksThisWeekData := dataVal o4 (weekRows store.user_books c startOfWeek)
      let momentsData := dataVal o5 (recentMoments store.moments c 3)
      let momentsThisWeekData := dataVal o6 (weekMoments store.moments c startOfWeek)
      let wordsThisWeekCount :=
        match wordsThisWeekData with
        | some l => l.length
        | none => 0
      let booksThisWeekCount :=
        match booksThisWeekData with
        | some l => l.length
        | none => 0
      let momentsThisWeekCount :=
        match momentsThisWeekData with
        | some l => l.length
        | none => 0
      let stats : ProfileStats :=
        { totalWords := totalWordsCount.getD 0
          totalBooks := totalBooksCount.getD 0
          wordsThisWeek := wordsThisWeekCount
          booksThisWeek := booksThisWeekCount
          momentsThisWeek := momentsThisWeekCount
          newWordsThisWeek := wordsThisWeekCount }
      let moments : List ResolvedMoment :=
        match momentsData with
        | some ms => if 0 < ms.length then processMomentsWithSignedUrls resolve ms else []
        | none => []
      ({ stats := stats, moments := moments }, false)

end Profile

namespace ProfileIos

/-- fetchProfileData from `src/app/(tabs)/profile.ios.tsx` lines 92-184.
With no selected child it resets stats to the all-zero snapshot and moments to
the empty list without issuing any query. Otherwise five count queries and one
recent-moments query (limit 6) run under `Promise.all`; a rejection reaches
the catch branch leaving state untouched, a resolved error is never read and
every null count defaults to 0. When `momentsData` is null the moments state
is left unchanged (the source has no else branch on `if (momentsData)`). -/
def fetchProfileData (selectedChild : Option Nat) (store : Store)
    (o1 o2 o3 o4 o5 o6 : QueryOutcome) (resolve : Nat → Option Nat)
    (now : Int) (prior : ScreenState) : ScreenState × Bool :=
  match selectedChild with
  | none => ({ stats := zeroStats, moments := [] }, false)
  | some c =>
    if anyReject o1 o2 o3 o4 o5 o6 then
      (prior, true)
    else
      let startOfWeek := getStartOfWeek now
      let totalWordsCount := countVal o1 (countRows store.user_words c none)
      let totalBooksCount := countVal o2 (countRows store.user_books c none)
      let wordsThisWeekCount := countVal o3 (countRows store.user_words c (some startOfWeek))
      let booksThisWeekCount := countVal o4 (countRows store.user_books c (some startOfWeek))
      let momentsThisWeekCount := countVal o5 (countMoments store.moments c (some startOfWeek))
      let momentsData := dataVal o6 (recentMoments store.moments c 6)
      let stats : ProfileStats :=
        { totalWords := totalWordsCount.getD 0
          totalBooks := totalBooksCount.getD 0
          wordsThisWeek := wordsThisWeekCount.getD 0
          booksThisWeek := booksThisWeekCount.getD 0
          momentsThisWeek := momentsThisWeekCount.getD 0
          newWordsThisWeek := wordsThisWeekCount.getD 0 }
      let moments : List ResolvedMoment :=
        match momentsData with
        | some ms => processMomentsWithSignedUrls resolve ms
        | none => prior.moments
      ({ stats := stats, moments := moments }, false)

end ProfileIos

namespace Part002

/-- fetchProfileData from `src/unnamed/part_002` lines 292-373. With no
selected child it only clears the loading flag: stats and moments stay
untouched and no query is issued. Otherwise six queries run sequentially and
each is followed by `if (error) throw error`, so a rejection or a resolved
error at any point reaches the catch branch with stats and moments untouched;
only when all six are fully successful are stats and moments written, word
counts coming from the `words` table and limit 6 on recent moments. -/
def fetchProfileData (selectedChild : Option Nat) (store : Store)
    (o1 o2 o3 o4 o5 o6 : QueryOutcome) (resolve : Nat → Option Nat)
    (now : Int) (prior : ScreenState) : ScreenState × Bool :=
  match selectedChild with
  | none => (prior, false)
  | some c =>
    if allOk o1 o2 o3 o4 o5 o6 then
      let startOfWeek := getStartOfWeek now
      let stats : ProfileStats :=
        { totalWords := countRows store.words c none
          totalBooks := countRows store.user_books c none
          wordsThisWeek := countRows store.words c (some startOfWeek)
          booksThisWeek := countRows store.user_books c (some startOfWeek)
          momentsThisWeek := countMoments store.moments c (some startOfWeek)
          newWordsThisWeek := countRows store.words c (some startOfWeek) }
      let moments : List ResolvedMoment :=
        processMomentsWithSignedUrls resolve (recentMoments store.moments c 6)
      ({ stats := stats, moments := moments }, false)
    else
      (prior, true)

end Part002

/-- The `{ words, books }` pair held by ProfileStatsContext. -/
structure ProfileStatsCtx where
  words : Nat
  books : Nat
deriving Repr, DecidableEq

namespace ProfileStatsContext

/-- fetchProfileStats from `src/contexts/ProfileStatsContext.tsx` lines 24-65.
With no selected child it resets the stored pair to zero. Otherwise the words
and books count queries are awaited in sequence and their error fields checked
afterwards; a rejected promise or a resolved error on either query throws into
the catch branch, which only logs, so the stored pair is updated exactly when
both queries fully succeed and is left unchanged on every failure path. -/
def fetchProfileStats (selectedChild : Option Nat) (store : Store)
    (oWords oBooks : QueryOutcome) (prior : ProfileStatsCtx) : ProfileStatsCtx :=
  match selectedChild with
  | none => { words := 0, books := 0 }
  | some c =>
    if isOk oWords && isOk oBooks then
      { words := countRows store.user_words c none
        books := countRows store.user_books c none }
    else
      prior

end ProfileStatsContext

/-- Shared helper: filtering by a conjunction yields at most as many rows as
filtering by the first conjunct alone. -/
lemma length_filter_and_le {α : Type} (l : List α) (p q : α → Bool) :
    (l.filter fun a => p a && q a).length ≤ (l.filter p).length := by
  induction l with
  | nil => simp
  | cons a t ih =>
    cases hp : p a <;> cases hq : q a <;>
      simp [List.filter_cons, hp, hq] <;> omega

/-- Shared helper: an unrestricted count is the plain child filter. -/
lemma countRows_none (rows : List Row) (c : Nat) :
    countRows rows c none = (rows.filter fun r => r.child_id == c).length := by
  unfold countRows
  simp

/-- Shared helper: the weekly row query never yields more rows than the
unrestricted count over the same record set. -/
lemma weekRows_length_le (rows : List Row) (c : Nat) (w : Int) :
    (weekRows rows c w).length ≤ countRows rows c none := by
  rw [countRows_none]
  exact length_filter_and_le rows (fun r => r.child_id == c)
    (fun r => decide (w ≤ r.created_at))

/-- Shared helper: resolution preserves the length of the moment list. -/
lemma process_length (resolve : Nat → Option Nat) (ms : List Moment) :
    (processMomentsWithSignedUrls resolve ms).length = ms.length := by
  simp [processMomentsWithSignedUrls]

/-- Shared helper: the resolved list is the pointwise resolution of the input. -/
lemma process_get (resolve : Nat → Option Nat) (ms : List Moment) (k : Nat)
    (hk : k < ms.length) :
    (processMomentsWithSignedUrls resolve ms).get
        ⟨k, by rw [process_length]; exact hk⟩
      = resolveMoment resolve (ms.get ⟨k, hk⟩) := by
  simp [processMomentsWithSignedUrls]

/-- A resolver that fails on every object reference. -/
def noResolver : Nat → Option Nat :=
  fun _ => none

/-- A store with one word record for child 1, created at instant 0. -/
def cexStore : Store :=
  { user_words := [{ child_id := 1, created_at := 0 }]
    user_books := []
    words := []
    moments := [] }

/-- The screen state before any fetch: zero stats and no moments. -/
def initialState : ScreenState :=
  { stats := zeroStats, moments := [] }

/-- A prior screen state holding a non-zero previously displayed snapshot. -/
def priorNonzero : ScreenState :=
  { stats :=
      { totalWords := 5, totalBooks := 0, wordsThisWeek := 0, booksThisWeek := 0,
        momentsThisWeek := 0, newWordsThisWeek := 0 }
    moments := [] }

/-- C1 counterexample: in profile.tsx a sub-query that resolves carrying an
error (here the totalWords count) is never detected: the fetch does not take
the catch branch, and it stores a snapshot in which totalWords reflects the
failed query default 0 while wordsThisWeek reflects the real data (1), so the
stored snapshot is neither the untouched prior one nor the complete correct
one — a mixed, partially populated snapshot, against the claim. -/
theorem softError_mixed_snapshot :
    (Profile.fetchProfileData (some 1) cexStore .softError .ok .ok .ok .ok .ok
        noResolver 0 initialState).2 = false ∧
    (Profile.fetchProfileData (some 1) cexStore .softError .ok .ok .ok .ok .ok
        noResolver 0 initialState).1.stats.totalWords
      < (Profile.fetchProfileData (some 1) cexStore .softError .ok .ok .ok .ok .ok
        noResolver 0 initialState).1.stats.wordsThisWeek ∧
    (Profile.fetchProfileData (some 1) cexStore .softError .ok .ok .ok .ok .ok
        noResolver 0 initialState).1.stats ≠ initialState.stats ∧
    (Profile.fetchProfileData (some 1) cexStore .softError .ok .ok .ok .ok .ok
        noResolver 0 initialState).1.stats
      ≠ (Profile.fetchProfileData (some 1) cexStore .ok .ok .ok .ok .ok .ok
        noResolver 0 initialState).1.stats := by
  decide

/-- C1 amended: when a sub-query fails by rejection (a thrown error), the
profile.tsx aggregation yields the single FetchFailed signal and leaves the
previously stored snapshot and moments untouched, so no mixed snapshot is
produced; and the part_002 implementation, which checks every error field,
aborts the same way on every failure mode, resolved errors included. -/
theorem fetch_abort_keeps_prior :
    (∀ (store : Store) (c : Nat) (o1 o2 o3 o4 o5 o6 : QueryOutcome)
       (resolve : Nat → Option Nat) (now : Int) (prior : ScreenState),
       anyReject o1 o2 o3 o4 o5 o6 = true →
       Profile.fetchProfileData (some c) store o1 o2 o3 o4 o5 o6 resolve now prior
         = (prior, true)) ∧
    (∀ (store : Store) (c : Nat) (o1 o2 o3 o4 o5 o6 : QueryOutcome)
       (resolve : Nat → Option Nat) (now : Int) (prior : ScreenState),
       allOk o1 o2 o3 o4 o5 o6 = false →
       Part002.fetchProfileData (some c) store o1 o2 o3 o4 o5 o6 resolve now prior
         = (prior, true)) := by
  constructor
  · intro store c o1 o2 o3 o4 o5 o6 resolve now prior h
    simp [Profile.fetchProfileData, h]
  · intro store c o1 o2 o3 o4 o5 o6 resolve now prior h
    simp [Part002.fetchProfileData, h]

/-- C1 witness: a rejected first sub-query makes profile.tsx surface
FetchFailed with the prior state intact, and a resolved error makes part_002
do the same. -/
theorem fetch_abort_keeps_prior_witness :
    Profile.fetchProfileData (some 1) cexStore .reject .ok .ok .ok .ok .ok
        noResolver 0 initialState = (initialState, true) ∧
    Part002.fetchProfileData (some 1) cexStore .softError .ok .ok .ok .ok .ok
        noResolver 0 initialState = (initialState, true) :=
  ⟨fetch_abort_keeps_prior.1 cexStore 1 .reject .ok .ok .ok .ok .ok
      noResolver 0 initialState (by decide),
   fetch_abort_keeps_prior.2 cexStore 1 .softError .ok .ok .ok .ok .ok
      noResolver 0 initialState (by decide)⟩

/-- C4 counterexample: with no selected child, profile.tsx only clears the
loading flag; a non-zero previously stored snapshot stays in place, so the
fetch does not produce the all-zero snapshot for every prior state. -/
theorem noChild_keeps_prior_state :
    Profile.fetchProfileData none cexStore .ok .ok .ok .ok .ok .ok
        noResolver 0 priorNonzero = (priorNonzero, false) ∧
    priorNonzero.stats ≠ zeroStats := by
  decide

/-- C4 amended: with no selected child no implementation issues any query
(the result is the same for every store and resolver); profile.ios.tsx resets
the state to the all-zero snapshot and the empty moment list, while
profile.tsx and part_002 leave the previously stored state unchanged. -/
theorem noChild_short_circuit (store : Store) (o1 o2 o3 o4 o5 o6 : QueryOutcome)
    (resolve : Nat → Option Nat) (now : Int) (prior : ScreenState) :
    ProfileIos.fetchProfileData none store o1 o2 o3 o4 o5 o6 resolve now prior
      = ({ stats := zeroStats, moments := [] }, false) ∧
    Profile.fetchProfileData none store o1 o2 o3 o4 o5 o6 resolve now prior
      = (prior, false) ∧
    Part002.fetchProfileData none store o1 o2 o3 o4 o5 o6 resolve now prior
      = (prior, false) :=
  ⟨rfl, rfl, rfl⟩

/-- C5: on a fully successful fetch, for every child and store, the stored
snapshot has non-negative integer counts, and the weekly word and book counts
never exceed the corresponding totals over the same record sets, in all three
implementations. -/
theorem stats_invariants (store : Store) (c : Nat) (resolve : Nat → Option Nat)
    (now : Int) (prior : ScreenState) :
    (let s := (Profile.fetchProfileData (some c) store .ok .ok .ok .ok .ok .ok
        resolve now prior).1.stats
     s.wordsThisWeek ≤ s.totalWords ∧ s.booksThisWeek ≤ s.totalBooks ∧
     0 ≤ (s.totalWords : Int) ∧ 0 ≤ (s.totalBooks : Int) ∧
     0 ≤ (s.wordsThisWeek : Int) ∧ 0 ≤ (s.booksThisWeek : Int) ∧
     0 ≤ (s.momentsThisWeek : Int) ∧ 0 ≤ (s.newWordsThisWeek : Int)) ∧
    (let s := (ProfileIos.fetchProfileData (some c) store .ok .ok .ok .ok .ok .ok
        resolve now prior).1.stats
     s.wordsThisWeek ≤ s.totalWords ∧ s.booksThisWeek ≤ s.totalBooks) ∧
    (let s := (Part002.fetchProfileData (some c) store .ok .ok .ok .ok .ok .ok
        resolve now prior).1.stats
     s.wordsThisWeek ≤ s.totalWords ∧ s.booksThisWeek ≤ s.totalBooks) := by
  refine ⟨⟨?_, ?_, Int.natCast_nonneg _, Int.natCast_nonneg _, Int.natCast_nonneg _,
      Int.natCast_nonneg _, Int.natCast_nonneg _, Int.natCast_nonneg _⟩,
    ⟨?_, ?_⟩, ⟨?_, ?_⟩⟩
  · exact weekRows_length_le store.user_words c (Profile.getStartOfWeek now)
  · exact weekRows_length_le store.user_books c (Profile.getStartOfWeek now)
  · exact weekRows_length_le store.user_words c (ProfileIos.getStartOfWeek now)
  · exact weekRows_length_le store.user_books c (ProfileIos.getStartOfWeek now)
  · exact weekRows_length_le store.words c (Part002.getStartOfWeek now)
  · exact weekRows_length_le store.user_books c (Part002.getStartOfWeek now)

/-- C6: for every child and store, the recent-moments query with limit 3
returns at most 3 records in descending created_at order, and so does the
moments list a fully successful profile.tsx fetch stores. -/
theorem recentMoments_bounded_sorted (store : Store) (c : Nat)
    (resolve : Nat → Option Nat) (now : Int) (prior : ScreenState) :
    (recentMoments store.moments c 3).length ≤ 3 ∧
    List.Pairwise MomentDesc (recentMoments store.moments c 3) ∧
    (Profile.fetchProfileData (some c) store .ok .ok .ok .ok .ok .ok
        resolve now prior).1.moments.length ≤ 3 ∧
    List.Pairwise (fun a b : ResolvedMoment => b.created_at ≤ a.created_at)
      (Profile.fetchProfileData (some c) store .ok .ok .ok .ok .ok .ok
        resolve now prior).1.moments := by
  have hlen : (recentMoments store.moments c 3).length ≤ 3 := by
    unfold recentMoments
    simp [List.length_take]
  have hsort : List.Pairwise MomentDesc (recentMoments store.moments c 3) := by
    unfold recentMoments
    exact List.Pairwise.sublist (List.take_sublist _ _)
      (List.sorted_insertionSort MomentDesc _)
  have hmoments : (Profile.fetchProfileData (some c) store .ok .ok .ok .ok .ok .ok
        resolve now prior).1.moments
      = if 0 < (recentMoments store.moments c 3).length
        then processMomentsWithSignedUrls resolve (recentMoments store.moments c 3)
        else [] := rfl
  refine ⟨hlen, hsort, ?_, ?_⟩
  · rw [hmoments]
    by_cases h : 0 < (recentMoments store.moments c 3).length
    · rw [if_pos h, process_length]
      exact hlen
    · rw [if_neg h]
      simp
  · rw [hmoments]
    by_cases h : 0 < (recentMoments store.moments c 3).length
    · rw [if_pos h]
      unfold processMomentsWithSignedUrls
      rw [List.pairwise_map]
      exact hsort
    · rw [if_neg h]
      simp

/-- C8: whenever a snapshot is assembled (no sub-query rejection for the
Promise.all screens, full success for part_002), its newWordsThisWeek field
equals its wordsThisWeek field, for every child, store and outcome. -/
theorem newWords_eq_wordsThisWeek (store : Store) (c : Nat)
    (o1 o2 o3 o4 o5 o6 : QueryOutcome) (resolve : Nat → Option Nat)
    (now : Int) (prior : ScreenState) :
    (anyReject o1 o2 o3 o4 o5 o6 = false →
      (Profile.fetchProfileData (some c) store o1 o2 o3 o4 o5 o6
          resolve now prior).1.stats.newWordsThisWeek
        = (Profile.fetchProfileData (some c) store o1 o2 o3 o4 o5 o6
          resolve now prior).1.stats.wordsThisWeek) ∧
    (anyReject o1 o2 o3 o4 o5 o6 = false →
      (ProfileIos.fetchProfileData (some c) store o1 o2 o3 o4 o5 o6
          resolve now prior).1.stats.newWordsThisWeek
        = (ProfileIos.fetchProfileData (some c) store o1 o2 o3 o4 o5 o6
          resolve now prior).1.stats.wordsThisWeek) ∧
    (allOk o1 o2 o3 o4 o5 o6 = true →
      (Part002.fetchProfileData (some c) store o1 o2 o3 o4 o5 o6
          resolve now prior).1.stats.newWordsThisWeek
        = (Part002.fetchProfileData (some c) store o1 o2 o3 o4 o5 o6
          resolve now prior).1.stats.wordsThisWeek) := by
  refine ⟨?_, ?_, ?_⟩ <;> intro h <;>
    simp [Profile.fetchProfileData, ProfileIos.fetchProfileData,
      Part002.fetchProfileData, h]

/-- C8 witness: on a concrete fully successful fetch the two fields coincide
in all three implementations. -/
theorem newWords_eq_wordsThisWeek_witness :
    (Profile.fetchProfileData (some 1) cexStore .ok .ok .ok .ok .ok .ok
        noResolver 0 initialState).1.stats.newWordsThisWeek
      = (Profile.fetchProfileData (some 1) cexStore .ok .ok .ok .ok .ok .ok
        noResolver 0 initialState).1.stats.wordsThisWeek ∧
    (ProfileIos.fetchProfileData (some 1) cexStore .ok .ok .ok .ok .ok .ok
        noResolver 0 initialState).1.stats.newWordsThisWeek
      = (ProfileIos.fetchProfileData (some 1) cexStore .ok .ok .ok .ok .ok .ok
        noResolver 0 initialState).1.stats.wordsThisWeek ∧
    (Part002.fetchProfileData (some 1) cexStore .ok .ok .ok .ok .ok .ok
        noResolver 0 initialState).1.stats.newWordsThisWeek
      = (Part002.fetchProfileData (some 1) cexStore .ok .ok .ok .ok .ok .ok
        noResolver 0 initialState).1.stats.wordsThisWeek :=
  ⟨(newWords_eq_wordsThisWeek cexStore 1 .ok .ok .ok .ok .ok .ok
      noResolver 0 initialState).1 (by decide),
   (newWords_eq_wordsThisWeek cexStore 1 .ok .ok .ok .ok .ok .ok
      noResolver 0 initialState).2.1 (by decide),
   (newWords_eq_wordsThisWeek cexStore 1 .ok .ok .ok .ok .ok .ok
      noResolver 0 initialState).2.2 (by decide)⟩

/-- C9: signed-URL resolution is independent per moment: if the resolver
yields null for the thumbnail reference of the moment at position i, that
resolved record carries signedThumbnailUrl = null, while the record at any
position j is exactly the resolution of the j-th input moment, unaffected by
failures elsewhere. -/
theorem resolution_independent (resolve : Nat → Option Nat) (ms : List Moment)
    (i j : Nat) (hi : i < ms.length) (hj : j < ms.length) :
    ((ms.get ⟨i, hi⟩).thumbnail_url.bind resolve = none →
      ((processMomentsWithSignedUrls resolve ms).get
          ⟨i, by rw [process_length]; exact hi⟩).signedThumbnailUrl = none) ∧
    (processMomentsWithSignedUrls resolve ms).get
        ⟨j, by rw [process_length]; exact hj⟩
      = resolveMoment resolve (ms.get ⟨j, hj⟩) := by
  constructor
  · intro h
    rw [process_get resolve ms i hi]
    show (match (ms.get ⟨i, hi⟩).thumbnail_url with
          | none => none
          | some r => resolve r) = none
    cases hx : (ms.get ⟨i, hi⟩).thumbnail_url with
    | none => rfl
    | some r =>
      rw [hx] at h
      exact h
  · exact process_get resolve ms j hj

/-- A moment whose thumbnail reference the failing resolver rejects. -/
def momA : Moment :=
  { id := 10, child_id := 1, video_url := 100, thumbnail_url := some 200,
    created_at := 0 }

/-- A sibling moment whose references resolve successfully. -/
def momB : Moment :=
  { id := 11, child_id := 1, video_url := 101, thumbnail_url := some 201,
    created_at := 5 }

/-- A resolver failing exactly on object reference 200. -/
def cexResolver : Nat → Option Nat :=
  fun r => if r == 200 then none else some (r + 1000)

/-- C9 witness: with a resolver failing on the first moment's thumbnail, the
first resolved record has a null signed thumbnail URL while the second record
carries its successfully resolved URLs unchanged. -/
theorem resolution_independent_witness :
    ((processMomentsWithSignedUrls cexResolver [momA, momB]).get
        ⟨0, by decide⟩).signedThumbnailUrl = none ∧
    (processMomentsWithSignedUrls cexResolver [momA, momB]).get ⟨1, by decide⟩
      = { id := 11, video_url := 101, thumbnail_url := some 201, created_at := 5,
          signedVideoUrl := some 1101, signedThumbnailUrl := some 1201 } :=
  ⟨(resolution_independent cexResolver [momA, momB] 0 1
      (by decide) (by decide)).1 (by decide),
   ((resolution_independent cexResolver [momA, momB] 0 1
      (by decide) (by decide)).2).trans (by decide)⟩

/-- C10: in ProfileStatsContext.fetchProfileStats, if the words or the books
count query fails (resolved error or rejection), the stored pair is left
completely unchanged, for every prior state and store; words and books are
only updated together from a fully successful pair of queries. -/
theorem profileStats_unchanged_on_error (store : Store) (c : Nat)
    (oWords oBooks : QueryOutcome) (prior : ProfileStatsCtx)
    (h : oWords ≠ QueryOutcome.ok ∨ oBooks ≠ QueryOutcome.ok) :
    ProfileStatsContext.fetchProfileStats (some c) store oWords oBooks prior = prior := by
  cases oWords <;> cases oBooks <;>
    simp_all [ProfileStatsContext.fetchProfileStats, isOk]

/-- C10 witness: a words query resolving with an error leaves a concrete
stored pair untouched. -/
theorem profileStats_unchanged_on_error_witness :
    ProfileStatsContext.fetchProfileStats (some 1) cexStore .softError .ok
        { words := 3, books := 4 } = { words := 3, books := 4 } :=
  profileStats_unchanged_on_error cexStore 1 .softError .ok
    { words := 3, books := 4 } (Or.inl (by decide))

end TinyDreamers
